import Mathlib

/-!
# Shallow embedding of the Cart Store (`src/frontend/src/context/CartContext.jsx`)

This file embeds the cart state-management logic of the repository's
`CartContext.jsx` and the shape of its collaborators (`cartAPI` in
`src/frontend/src/services/api.js`, `localStorage`) into Lean, and proves the
specification claims about it.

Modelling conventions:
* A product's two possible identifier fields `_id` and `id` are `Option String`
  (`none` = the field is absent / `undefined`).  JavaScript `a || b` falls back
  on *falsiness*, so `undefined` and the empty string `""` both select `b`;
  `jsOr` models this.
* Quantities are `Int` (the store accepts any integer; JS callers pass
  integers).
* Each context operation is a function of the current in-memory `cartItems`,
  the `isAuthenticated` flag, and a boolean `apiThrows` saying whether the
  `await`ed `cartAPI` call rejects (axios rejects on transport/HTTP errors).
  The function returns the new in-memory state, the `{success, error}` result
  object, whether `shouldOpenCart` was set, and the list of remote calls that
  were issued.  The optimistic `setCartItems` happens before the `await`, so
  the new state is reached even on the throwing path (the `catch` only changes
  the returned result).
* `localStorage` is modelled by the parsed content of the `cart` entry, as an
  `Option (List CartItem)` (`none` = entry absent).
* The reconciliation effect (Effect 3) consumes one `FetchOutcome`: either the
  awaited `cartAPI.getCart()` rejects (`throws`), or it resolves to a body
  `{success, data}` where `data` may be absent and `data.items` may be absent.
  Accessing `.items` on an absent `data` raises a `TypeError` inside the
  `try`, which the `catch` swallows, leaving the cart unchanged.
-/

/-- A product snapshot as stored in a cart line.  Only the two identifier
fields matter for the cart logic; `none` models an absent (`undefined`)
field. -/
structure Product where
  _id : Option String
  id : Option String
deriving DecidableEq, Repr

/-- JS truthiness of a possibly-undefined string value: `undefined` and the
empty string are falsy, every other string is truthy. -/
def jsTruthy : Option String → Bool
  | none => false
  | some s => s ≠ ""

/-- JS `a || b` for possibly-undefined string values. -/
def jsOr (a b : Option String) : Option String :=
  if jsTruthy a then a else b

/-- The normalized identifier `product._id || product.id` computed at line 115
and inline in the `findIndex`/`map`/`filter` predicates of
`addToCart`/`updateQuantity`/`removeFromCart`. -/
def productId (p : Product) : Option String :=
  jsOr p._id p.id

/-- One cart line `{ product, quantity }`. -/
structure CartItem where
  product : Product
  quantity : Int
deriving DecidableEq, Repr

/-- The list of normalized identifiers of a cart, in order. -/
def cartKeys (c : List CartItem) : List (Option String) :=
  c.map fun item => productId item.product

/-- Every line of the cart has quantity ≥ 1. -/
def QuantitiesPos (c : List CartItem) : Prop :=
  ∀ item ∈ c, 1 ≤ item.quantity

instance : DecidablePred QuantitiesPos := fun c =>
  List.decidableBAll _ c

/-- The in-memory transition of `addToCart` (lines 115-130): find the first
line whose normalized identifier equals the new product's; if found, copy the
array and increment that line's quantity in place; otherwise append
`{ product, quantity }` at the end. -/
def addToCartItems (cartItems : List CartItem) (product : Product)
    (quantity : Int) : List CartItem :=
  let pid := productId product
  match cartItems.findIdx? (fun item => productId item.product == pid) with
  | some i =>
    match cartItems[i]? with
    | some item => cartItems.set i { item with quantity := item.quantity + quantity }
    | none => cartItems
  | none => cartItems ++ [{ product := product, quantity := quantity }]

/-- The in-memory transition of `removeFromCart` (lines 176-178): keep the
lines whose normalized identifier differs from `pid`. -/
def removeFromCartItems (cartItems : List CartItem) (pid : Option String) :
    List CartItem :=
  cartItems.filter fun item => productId item.product != pid

/-- The in-memory transition of `updateQuantity` (lines 152-158): quantity ≤ 0
delegates to removal, otherwise the matching line's quantity is replaced. -/
def updateQuantityItems (cartItems : List CartItem) (pid : Option String)
    (quantity : Int) : List CartItem :=
  if quantity ≤ 0 then
    removeFromCartItems cartItems pid
  else
    cartItems.map fun item =>
      if productId item.product == pid then { item with quantity := quantity }
      else item

/-- The `{success, error}` object returned by the context operations. -/
structure OpResult where
  success : Bool
  error : Option String
deriving DecidableEq, Repr

/-- One call to the Remote Cart Service (`cartAPI` in `services/api.js`). -/
inductive RemoteCall where
  | getCart
  | addToCart (productId : Option String) (quantity : Int)
  | updateCartItem (productId : Option String) (quantity : Int)
  | removeFromCart (productId : Option String)
deriving DecidableEq, Repr

/-- Everything observable about one run of a context operation: the new
in-memory cart, the returned result, whether the `shouldOpenCart` flag was
set, and the remote calls that were issued. -/
structure OpOutcome where
  cartItems : List CartItem
  result : OpResult
  shouldOpenCart : Bool
  calls : List RemoteCall
deriving DecidableEq, Repr

/-- `addToCart` (lines 112-148).  The optimistic `setCartItems` precedes the
`await cartAPI.addToCart(...)`, so the throwing path still leaves the new
state in place; `setShouldOpenCart(true)` comes after the `await`, so it is
skipped when the call rejects, and the `catch` returns `{success: false,
error}`.  Unauthenticated, no remote call is made. -/
def addToCart (cartItems : List CartItem) (isAuthenticated apiThrows : Bool)
    (product : Product) (quantity : Int) : OpOutcome :=
  let pid := productId product
  let newCartItems := addToCartItems cartItems product quantity
  if isAuthenticated then
    if apiThrows then
      { cartItems := newCartItems
        result := { success := false, error := some "Failed to add item to cart" }
        shouldOpenCart := false
        calls := [RemoteCall.addToCart pid quantity] }
    else
      { cartItems := newCartItems
        result := { success := true, error := none }
        shouldOpenCart := true
        calls := [RemoteCall.addToCart pid quantity] }
  else
    { cartItems := newCartItems
      result := { success := true, error := none }
      shouldOpenCart := true
      calls := [] }

/-- `removeFromCart` (lines 174-192).  The optimistic update precedes the
`await cartAPI.removeFromCart(productId)`; a rejection is caught and turned
into `{success: false, error}` without rolling the state back. -/
def removeFromCart (cartItems : List CartItem) (isAuthenticated apiThrows : Bool)
    (pid : Option String) : OpOutcome :=
  let newCartItems := removeFromCartItems cartItems pid
  if isAuthenticated then
    if apiThrows then
      { cartItems := newCartItems
        result := { success := false, error := some "Failed to remove item from cart" }
        shouldOpenCart := false
        calls := [RemoteCall.removeFromCart pid] }
    else
      { cartItems := newCartItems
        result := { success := true, error := none }
        shouldOpenCart := false
        calls := [RemoteCall.removeFromCart pid] }
  else
    { cartItems := newCartItems
      result := { success := true, error := none }
      shouldOpenCart := false
      calls := [] }

/-- `updateQuantity` (lines 150-172).  Quantity ≤ 0 returns
`removeFromCart(productId)`; otherwise the optimistic `map` update precedes
the `await cartAPI.updateCartItem(...)`, whose rejection is caught as in the
other operations. -/
def updateQuantity (cartItems : List CartItem) (isAuthenticated apiThrows : Bool)
    (pid : Option String) (quantity : Int) : OpOutcome :=
  if quantity ≤ 0 then
    removeFromCart cartItems isAuthenticated apiThrows pid
  else
    let newCartItems :=
      cartItems.map fun item =>
        if productId item.product == pid then { item with quantity := quantity }
        else item
    if isAuthenticated then
      if apiThrows then
        { cartItems := newCartItems
          result := { success := false, error := some "Failed to update cart" }
          shouldOpenCart := false
          calls := [RemoteCall.updateCartItem pid quantity] }
      else
        { cartItems := newCartItems
          result := { success := true, error := none }
          shouldOpenCart := false
          calls := [RemoteCall.updateCartItem pid quantity] }
    else
      { cartItems := newCartItems
        result := { success := true, error := none }
        shouldOpenCart := false
        calls := [] }

/-- Result of `clearCart` (lines 194-197): the new in-memory cart, the new
content of the `localStorage` entry (`removeItem` deletes it), and the remote
calls issued (none — the function body has no `cartAPI` call). -/
structure ClearOutcome where
  cartItems : List CartItem
  storedCart : Option (List CartItem)
  calls : List RemoteCall
deriving DecidableEq, Repr

/-- `clearCart` (lines 194-197): `setCartItems([])` then
`localStorage.removeItem('cart')`, ignoring the prior state. -/
def clearCart (_cartItems : List CartItem) : ClearOutcome :=
  { cartItems := [], storedCart := none, calls := [] }

/-- Effect 1 (lines 55-60): on mount, if the `cart` entry is present, parse it
into the state; otherwise the state keeps its current (initial) value. -/
def loadCartEffect (cartItems : List CartItem)
    (storedCart : Option (List CartItem)) : List CartItem :=
  match storedCart with
  | some stored => stored
  | none => cartItems

/-- Effect 2 (lines 66-68): after every state change, the `cart` entry is
rewritten with the serialized current items. -/
def syncCartEffect (cartItems : List CartItem) : Option (List CartItem) :=
  some cartItems

/-- The `data` object of a `getCart` response body (`cartAPI.getCart()`
returns `response.data`, so the body is `{success, data: {items}}`).  `items`
may be absent or null (`none`). -/
structure FetchData where
  items : Option (List CartItem)
deriving DecidableEq, Repr

/-- Outcome of the single awaited `cartAPI.getCart()` in Effect 3: the promise
rejects, or it resolves to a body with a `success` flag and a possibly-absent
`data` object. -/
inductive FetchOutcome where
  | throws
  | resolves (success : Bool) (data : Option FetchData)
deriving DecidableEq, Repr

/-- Effect 3 (lines 75-95): when `isAuthenticated` holds, issue one
`getCart`; on `response.success` replace the cart with
`response.data.items || []` (reading `.items` of an absent `data` raises,
which the `catch` swallows); on rejection or `success: false` keep the cart.
Unauthenticated, nothing happens. -/
def fetchCartEffect (cartItems : List CartItem) (isAuthenticated : Bool)
    (outcome : FetchOutcome) : List CartItem × List RemoteCall :=
  if isAuthenticated then
    match outcome with
    | FetchOutcome.throws => (cartItems, [RemoteCall.getCart])
    | FetchOutcome.resolves success data =>
      if success then
        match data with
        | some d => (d.items.getD [], [RemoteCall.getCart])
        | none => (cartItems, [RemoteCall.getCart])
      else
        (cartItems, [RemoteCall.getCart])
  else
    (cartItems, [])

/-- Modelled from the spec (claim C7 wording, for comparison with the code):
the normalized identifier is the primary identifier field whenever that field
is present on the object, and the secondary identifier field otherwise. -/
def presenceNormalizedId (p : Product) : Option String :=
  match p._id with
  | some s => some s
  | none => p.id

/-- Modelled from the amended claim (for comparison with the code): the
primary identifier field is used only when it is present and truthy (JS `||`
tests truthiness, so an empty-string `_id` falls back to `id`). -/
def truthyNormalizedId (p : Product) : Option String :=
  match p._id with
  | some s => if s = "" then p.id else some s
  | none => p.id

/-! ## Shared lemmas about the in-memory transitions -/

theorem addToCartItems_nil (p : Product) (k : Int) :
    addToCartItems [] p k = [⟨p, k⟩] := rfl

/-- Cons-unfolding of `addToCartItems`: the first matching line absorbs the
quantity; otherwise the head is kept and the search continues. -/
theorem addToCartItems_cons (x : CartItem) (rest : List CartItem) (p : Product)
    (k : Int) :
    addToCartItems (x :: rest) p k =
      if productId x.product == productId p then
        { x with quantity := x.quantity + k } :: rest
      else
        x :: addToCartItems rest p k := by
  by_cases h : productId x.product == productId p
  · simp [addToCartItems, List.findIdx?_cons, h]
  · simp only [addToCartItems, List.findIdx?_cons, h, if_false,
      Bool.false_eq_true, List.findIdx?_start_succ]
    cases hf : rest.findIdx? (fun item => productId item.product == productId p) with
    | none => simp
    | some j =>
      have h1 : Option.map (fun k => k + (0 + 1)) (some j) = some (j + 1) := rfl
      rw [h1]
      show (match (x :: rest)[j + 1]? with
          | some item => (x :: rest).set (j + 1) { item with quantity := item.quantity + k }
          | none => x :: rest)
        = x :: (match rest[j]? with
          | some item => rest.set j { item with quantity := item.quantity + k }
          | none => rest)
      rw [List.getElem?_cons_succ]
      cases (rest[j]?) with
      | none => rfl
      | some item => simp

/-- When no line matches the new product's normalized identifier, `addToCart`
appends a fresh line at the end. -/
theorem addToCartItems_of_not_mem (cart : List CartItem) (p : Product) (k : Int)
    (h : ∀ item ∈ cart, productId item.product ≠ productId p) :
    addToCartItems cart p k = cart ++ [⟨p, k⟩] := by
  induction cart with
  | nil => simp [addToCartItems_nil]
  | cons x rest ih =>
    have hx : productId x.product ≠ productId p := h x (List.mem_cons_self x rest)
    rw [addToCartItems_cons, if_neg (by simp [hx]),
      ih (fun item hm => h item (List.mem_cons_of_mem x hm))]
    simp

/-- When the cart is `before ++ line :: after` and nothing in `before` matches,
`addToCart` merges into `line`, in place. -/
theorem addToCartItems_append_found (before after : List CartItem)
    (line : CartItem) (p : Product) (k : Int)
    (hmatch : productId line.product = productId p)
    (hbefore : ∀ item ∈ before, productId item.product ≠ productId p) :
    addToCartItems (before ++ line :: after) p k
      = before ++ { line with quantity := line.quantity + k } :: after := by
  induction before with
  | nil =>
    simp only [List.nil_append]
    rw [addToCartItems_cons, if_pos (by simp [hmatch])]
  | cons x rest ih =>
    have hx : productId x.product ≠ productId p :=
      hbefore x (List.mem_cons_self x rest)
    simp only [List.cons_append]
    rw [addToCartItems_cons, if_neg (by simp [hx]),
      ih (fun item hm => hbefore item (List.mem_cons_of_mem x hm))]

theorem cartKeys_cons (x : CartItem) (rest : List CartItem) :
    cartKeys (x :: rest) = productId x.product :: cartKeys rest := rfl

/-- Merging into an existing line does not change the key sequence. -/
theorem cartKeys_addToCartItems_of_mem (cart : List CartItem) (p : Product)
    (k : Int) (h : ∃ item ∈ cart, productId item.product = productId p) :
    cartKeys (addToCartItems cart p k) = cartKeys cart := by
  induction cart with
  | nil => simp at h
  | cons x rest ih =>
    by_cases hx : productId x.product = productId p
    · rw [addToCartItems_cons, if_pos (by simp [hx])]
      rfl
    · rw [addToCartItems_cons, if_neg (by simp [hx])]
      have h2 : ∃ item ∈ rest, productId item.product = productId p := by
        rcases h with ⟨item, hm, he⟩
        rcases List.mem_cons.mp hm with h3 | h3
        · rw [h3] at he
          exact absurd he hx
        · exact ⟨item, h3, he⟩
      rw [cartKeys_cons, cartKeys_cons, ih h2]

theorem quantitiesPos_cons (x : CartItem) (rest : List CartItem) :
    QuantitiesPos (x :: rest) ↔ 1 ≤ x.quantity ∧ QuantitiesPos rest := by
  simp [QuantitiesPos]

/-- `addToCart` with a positive quantity preserves positivity of all lines. -/
theorem quantitiesPos_addToCartItems (cart : List CartItem) (p : Product)
    (k : Int) (hc : QuantitiesPos cart) (hk : 1 ≤ k) :
    QuantitiesPos (addToCartItems cart p k) := by
  induction cart with
  | nil =>
    rw [addToCartItems_nil]
    intro item hm
    simp only [List.mem_singleton] at hm
    rw [hm]
    exact hk
  | cons x rest ih =>
    rw [quantitiesPos_cons] at hc
    rw [addToCartItems_cons]
    by_cases hx : productId x.product == productId p
    · rw [if_pos hx, quantitiesPos_cons]
      refine ⟨?_, hc.2⟩
      have h1 := hc.1
      simp only []
      omega
    · rw [if_neg hx, quantitiesPos_cons]
      exact ⟨hc.1, ih hc.2⟩

/-- Removal is a sublist of the original cart. -/
theorem removeFromCartItems_sublist (cart : List CartItem) (pid : Option String) :
    (removeFromCartItems cart pid).Sublist cart :=
  List.filter_sublist cart

/-- The positive-quantity branch of `updateQuantity` does not change the key
sequence. -/
theorem cartKeys_map_update (cart : List CartItem) (pid : Option String)
    (q : Int) :
    cartKeys (cart.map fun item =>
        if productId item.product == pid then { item with quantity := q }
        else item)
      = cartKeys cart := by
  unfold cartKeys
  rw [List.map_map]
  congr 1
  funext item
  simp only [Function.comp_apply]
  split <;> rfl

/-! ## Projections of the full operations -/

theorem addToCart_cartItems (cart : List CartItem) (auth apiThrows : Bool)
    (p : Product) (k : Int) :
    (addToCart cart auth apiThrows p k).cartItems = addToCartItems cart p k := by
  cases auth <;> cases apiThrows <;> rfl

theorem addToCart_success (cart : List CartItem) (auth apiThrows : Bool)
    (p : Product) (k : Int) :
    (addToCart cart auth apiThrows p k).result.success = !(auth && apiThrows) := by
  cases auth <;> cases apiThrows <;> rfl

theorem addToCart_error (cart : List CartItem) (auth apiThrows : Bool)
    (p : Product) (k : Int) :
    (addToCart cart auth apiThrows p k).result.error.isSome = (auth && apiThrows) := by
  cases auth <;> cases apiThrows <;> rfl

theorem removeFromCart_cartItems (cart : List CartItem) (auth apiThrows : Bool)
    (pid : Option String) :
    (removeFromCart cart auth apiThrows pid).cartItems
      = removeFromCartItems cart pid := by
  cases auth <;> cases apiThrows <;> rfl

theorem removeFromCart_success (cart : List CartItem) (auth apiThrows : Bool)
    (pid : Option String) :
    (removeFromCart cart auth apiThrows pid).result.success
      = !(auth && apiThrows) := by
  cases auth <;> cases apiThrows <;> rfl

theorem removeFromCart_error (cart : List CartItem) (auth apiThrows : Bool)
    (pid : Option String) :
    (removeFromCart cart auth apiThrows pid).result.error.isSome
      = (auth && apiThrows) := by
  cases auth <;> cases apiThrows <;> rfl

theorem updateQuantity_cartItems (cart : List CartItem) (auth apiThrows : Bool)
    (pid : Option String) (q : Int) :
    (updateQuantity cart auth apiThrows pid q).cartItems
      = updateQuantityItems cart pid q := by
  unfold updateQuantity updateQuantityItems
  by_cases hq : q ≤ 0
  · rw [if_pos hq, if_pos hq, removeFromCart_cartItems]
  · rw [if_neg hq, if_neg hq]
    cases auth <;> cases apiThrows <;> rfl

theorem updateQuantity_success (cart : List CartItem) (auth apiThrows : Bool)
    (pid : Option String) (q : Int) :
    (updateQuantity cart auth apiThrows pid q).result.success
      = !(auth && apiThrows) := by
  unfold updateQuantity
  by_cases hq : q ≤ 0
  · rw [if_pos hq, removeFromCart_success]
  · rw [if_neg hq]
    cases auth <;> cases apiThrows <;> rfl

theorem updateQuantity_error (cart : List CartItem) (auth apiThrows : Bool)
    (pid : Option String) (q : Int) :
    (updateQuantity cart auth apiThrows pid q).result.error.isSome
      = (auth && apiThrows) := by
  unfold updateQuantity
  by_cases hq : q ≤ 0
  · rw [if_pos hq, removeFromCart_error]
  · rw [if_neg hq]
    cases auth <;> cases apiThrows <;> rfl

/-! ## Claim theorems -/

/-- C3: for every prior cart state, when `authenticated` becomes true and the
Remote Cart Service fetch succeeds with a body `{success: true, data: {items:
L}}`, the resulting CartSnapshot is exactly `L`, discarding all prior local
lines. -/
theorem fetchCart_success_replaces_wholesale (cart L : List CartItem) :
    (fetchCartEffect cart true (FetchOutcome.resolves true (some ⟨some L⟩))).1
      = L := by
  simp [fetchCartEffect]

/-- C4: for every prior cart state, if the reconciliation fetch fails — the
promise rejects, or it resolves with `success` false — the CartSnapshot is
unchanged, and exactly one `getCart` call was issued (no automatic retry). -/
theorem fetchCart_failure_keeps_local (cart : List CartItem) :
    fetchCartEffect cart true FetchOutcome.throws = (cart, [RemoteCall.getCart]) ∧
    ∀ data, fetchCartEffect cart true (FetchOutcome.resolves false data)
      = (cart, [RemoteCall.getCart]) := by
  constructor
  · simp [fetchCartEffect]
  · intro data
    simp [fetchCartEffect]

/-- C10: a fetch that resolves with `success` true but whose `data.items`
field is absent or null replaces the CartSnapshot with the empty list,
whatever the prior local cart was. -/
theorem fetchCart_success_missing_items_empties (cart : List CartItem) :
    (fetchCartEffect cart true (FetchOutcome.resolves true (some ⟨none⟩))).1
      = [] := by
  simp [fetchCartEffect]

/-- C9: for every prior cart state, `clearCart` empties the CartSnapshot,
deletes the Local Persistence entry, issues no remote call, and a subsequent
store re-creation (load effect on a fresh empty state) yields an empty
cart. -/
theorem clearCart_roundtrip (cart : List CartItem) :
    (clearCart cart).cartItems = [] ∧
    (clearCart cart).storedCart = none ∧
    (clearCart cart).calls = [] ∧
    loadCartEffect [] (clearCart cart).storedCart = [] :=
  ⟨rfl, rfl, rfl, rfl⟩

/-- C8: `removeFromCart` is idempotent on the CartSnapshot, and removing an
identifier that matches no line is a no-op rather than an error. -/
theorem removeFromCart_idempotent (cart : List CartItem) (pid : Option String) :
    removeFromCartItems (removeFromCartItems cart pid) pid
      = removeFromCartItems cart pid ∧
    ((∀ item ∈ cart, productId item.product ≠ pid) →
      removeFromCartItems cart pid = cart) := by
  constructor
  · unfold removeFromCartItems
    rw [List.filter_filter]
    congr 1
    funext item
    cases h : (productId item.product != pid) <;> simp [h]
  · intro h
    unfold removeFromCartItems
    rw [List.filter_eq_self]
    intro item hm
    simpa using h item hm

/-- Witness for C8 at a concrete cart and identifier. -/
theorem removeFromCart_idempotent_witness :
    removeFromCartItems
        (removeFromCartItems [⟨⟨some "a", none⟩, 2⟩] (some "b")) (some "b")
      = removeFromCartItems [⟨⟨some "a", none⟩, 2⟩] (some "b") ∧
    removeFromCartItems [⟨⟨some "a", none⟩, 2⟩] (some "b")
      = [⟨⟨some "a", none⟩, 2⟩] :=
  ⟨(removeFromCart_idempotent [⟨⟨some "a", none⟩, 2⟩] (some "b")).1,
   (removeFromCart_idempotent [⟨⟨some "a", none⟩, 2⟩] (some "b")).2 (by decide)⟩

/-- C2: if the cart holds exactly one line whose normalized identifier equals
the added product's (`before` and `after` contain no such line), `addToCart`
merges the quantity into that line in place; if no line matches, a new
`{product, quantity}` line is appended at the end. -/
theorem addToCart_merge_or_append :
    (∀ (before after : List CartItem) (line : CartItem) (p : Product) (k : Int),
      productId line.product = productId p →
      (∀ item ∈ before, productId item.product ≠ productId p) →
      (∀ item ∈ after, productId item.product ≠ productId p) →
      addToCartItems (before ++ line :: after) p k
        = before ++ { line with quantity := line.quantity + k } :: after) ∧
    (∀ (cart : List CartItem) (p : Product) (k : Int),
      (∀ item ∈ cart, productId item.product ≠ productId p) →
      addToCartItems cart p k = cart ++ [⟨p, k⟩]) := by
  constructor
  · intro before after line p k hmatch hbefore _hafter
    exact addToCartItems_append_found before after line p k hmatch hbefore
  · intro cart p k h
    exact addToCartItems_of_not_mem cart p k h

/-- Witness for C2: a concrete merge (the matching line sits between two other
lines and absorbs the quantity in place) and a concrete append. -/
theorem addToCart_merge_or_append_witness :
    addToCartItems
        ([⟨⟨some "a", none⟩, 2⟩] ++ ⟨⟨some "p1", none⟩, 3⟩ :: [⟨⟨some "b", none⟩, 1⟩])
        ⟨none, some "p1"⟩ 4
      = [⟨⟨some "a", none⟩, 2⟩]
          ++ { product := ⟨some "p1", none⟩, quantity := 3 + 4 }
            :: [⟨⟨some "b", none⟩, 1⟩] ∧
    addToCartItems [⟨⟨some "a", none⟩, 2⟩] ⟨some "p2", none⟩ 1
      = [⟨⟨some "a", none⟩, 2⟩] ++ [⟨⟨some "p2", none⟩, 1⟩] :=
  ⟨addToCart_merge_or_append.1 [⟨⟨some "a", none⟩, 2⟩] [⟨⟨some "b", none⟩, 1⟩]
      ⟨⟨some "p1", none⟩, 3⟩ ⟨none, some "p1"⟩ 4 (by decide) (by decide) (by decide),
   addToCart_merge_or_append.2 [⟨⟨some "a", none⟩, 2⟩] ⟨some "p2", none⟩ 1 (by decide)⟩

/-- C7 counterexample: the product `{_id: "", id: "x"}` has its primary
identifier field present, yet the code's normalized identifier is `"x"` (JS
`||` falls back on the falsy empty string), not the primary field's value as
the claim states. -/
theorem productId_presence_counterexample :
    productId ⟨some "", some "x"⟩ = some "x" ∧
    presenceNormalizedId ⟨some "", some "x"⟩ = some "" ∧
    productId ⟨some "", some "x"⟩ ≠ presenceNormalizedId ⟨some "", some "x"⟩ := by
  decide

/-- C7 amended: the normalized identifier equals the primary identifier field
whenever that field is present and truthy (non-empty), and the secondary
identifier field otherwise. -/
theorem productId_eq_truthyNormalizedId (p : Product) :
    productId p = truthyNormalizedId p := by
  cases p with
  | mk a b =>
    cases a with
    | none => rfl
    | some s =>
      by_cases h : s = ""
      · simp [productId, jsOr, jsTruthy, truthyNormalizedId, h]
      · simp [productId, jsOr, jsTruthy, truthyNormalizedId, h]

/-- C1 counterexample: authenticated, with the awaited remote add rejecting,
`addToCart` returns `{success: false, error}` — not `{success: true}` as the
claim states for a completed optimistic update — although the optimistic
in-memory update did complete and is kept. -/
theorem addToCart_remote_failure_counterexample :
    (addToCart [] true true ⟨some "p1", none⟩ 1).result
      = ⟨false, some "Failed to add item to cart"⟩ ∧
    (addToCart [] true true ⟨some "p1", none⟩ 1).cartItems
      = [⟨⟨some "p1", none⟩, 1⟩] := by
  decide

/-- C1 amended: for `addToCart`, `updateQuantity` and `removeFromCart` the
in-memory CartSnapshot always becomes the optimistic transition and is never
rolled back; the result is `{success: true}` exactly when no exception
occurred — that is, unless the user is authenticated and the awaited remote
call rejects, in which case `{success: false}` with an error message is
returned (a remote call that resolves, even unsuccessfully, does not throw
and still yields `{success: true}`). -/
theorem cartOps_no_rollback_and_result (cart : List CartItem)
    (auth apiThrows : Bool) (p : Product) (k : Int) (pid : Option String)
    (q : Int) :
    ((addToCart cart auth apiThrows p k).cartItems = addToCartItems cart p k ∧
      (addToCart cart auth apiThrows p k).result.success = !(auth && apiThrows) ∧
      (addToCart cart auth apiThrows p k).result.error.isSome
        = (auth && apiThrows)) ∧
    ((updateQuantity cart auth apiThrows pid q).cartItems
        = updateQuantityItems cart pid q ∧
      (updateQuantity cart auth apiThrows pid q).result.success
        = !(auth && apiThrows) ∧
      (updateQuantity cart auth apiThrows pid q).result.error.isSome
        = (auth && apiThrows)) ∧
    ((removeFromCart cart auth apiThrows pid).cartItems
        = removeFromCartItems cart pid ∧
      (removeFromCart cart auth apiThrows pid).result.success
        = !(auth && apiThrows) ∧
      (removeFromCart cart auth apiThrows pid).result.error.isSome
        = (auth && apiThrows)) :=
  ⟨⟨addToCart_cartItems cart auth apiThrows p k,
    addToCart_success cart auth apiThrows p k,
    addToCart_error cart auth apiThrows p k⟩,
   ⟨updateQuantity_cartItems cart auth apiThrows pid q,
    updateQuantity_success cart auth apiThrows pid q,
    updateQuantity_error cart auth apiThrows pid q⟩,
   ⟨removeFromCart_cartItems cart auth apiThrows pid,
    removeFromCart_success cart auth apiThrows pid,
    removeFromCart_error cart auth apiThrows pid⟩⟩

theorem cartKeys_append (a b : List CartItem) :
    cartKeys (a ++ b) = cartKeys a ++ cartKeys b :=
  List.map_append _ a b

/-- C5 counterexample: `addToCart` with quantity 0 (the store accepts any
integer) appends a line whose quantity is 0, so the positivity invariant is
not preserved by every operation. -/
theorem quantities_invariant_counterexample :
    (addToCart [] false false ⟨some "p1", none⟩ 0).cartItems
      = [⟨⟨some "p1", none⟩, 0⟩] ∧
    ¬ QuantitiesPos (addToCart [] false false ⟨some "p1", none⟩ 0).cartItems := by
  decide

/-- C5 amended: positivity of all line quantities is preserved by `addToCart`
when the added quantity is ≥ 1, by `updateQuantity` for every quantity
argument (quantity ≤ 0 delegates to removal), by `removeFromCart` and
`clearCart` unconditionally, and by the reconciliation replacement when every
server line has quantity ≥ 1; the store itself never checks, so `addToCart`
with quantity ≤ 0 and a reconciliation payload with nonpositive quantities
can violate it. -/
theorem quantities_invariant_amended (cart : List CartItem) (p : Product)
    (k : Int) (pid : Option String) (q : Int) (L : List CartItem) :
    (QuantitiesPos cart → 1 ≤ k → QuantitiesPos (addToCartItems cart p k)) ∧
    (QuantitiesPos cart → QuantitiesPos (updateQuantityItems cart pid q)) ∧
    (QuantitiesPos cart → QuantitiesPos (removeFromCartItems cart pid)) ∧
    QuantitiesPos (clearCart cart).cartItems ∧
    (QuantitiesPos L → QuantitiesPos (fetchCartEffect cart true
        (FetchOutcome.resolves true (some ⟨some L⟩))).1) ∧
    (q ≤ 0 → updateQuantityItems cart pid q = removeFromCartItems cart pid) := by
  have hrem : QuantitiesPos cart → QuantitiesPos (removeFromCartItems cart pid) := by
    intro hc item hm
    exact hc item (List.mem_of_mem_filter hm)
  refine ⟨fun hc hk => quantitiesPos_addToCartItems cart p k hc hk, ?_, hrem,
    ?_, ?_, ?_⟩
  · intro hc
    unfold updateQuantityItems
    by_cases hq : q ≤ 0
    · rw [if_pos hq]
      exact hrem hc
    · rw [if_neg hq]
      intro item hm
      rcases List.mem_map.mp hm with ⟨a, ha, rfl⟩
      by_cases hmatch : productId a.product == pid
      · rw [if_pos hmatch]
        show (1 : Int) ≤ q
        omega
      · rw [if_neg hmatch]
        exact hc a ha
  · intro item hm
    simp [clearCart] at hm
  · intro hL
    simpa [fetchCartEffect] using hL
  · intro hq
    unfold updateQuantityItems
    rw [if_pos hq]

/-- Witness for C5 at concrete carts, quantities and payloads. -/
theorem quantities_invariant_amended_witness :
    QuantitiesPos (addToCartItems [⟨⟨some "a", none⟩, 2⟩] ⟨some "p1", none⟩ 1) ∧
    QuantitiesPos (updateQuantityItems [⟨⟨some "a", none⟩, 2⟩] (some "a") 5) ∧
    QuantitiesPos (removeFromCartItems [⟨⟨some "a", none⟩, 2⟩] (some "a")) ∧
    QuantitiesPos (clearCart [⟨⟨some "a", none⟩, 2⟩]).cartItems ∧
    QuantitiesPos (fetchCartEffect [⟨⟨some "a", none⟩, 2⟩] true
        (FetchOutcome.resolves true (some ⟨some [⟨⟨some "x", none⟩, 3⟩]⟩))).1 ∧
    updateQuantityItems [⟨⟨some "a", none⟩, 2⟩] (some "a") (-1)
      = removeFromCartItems [⟨⟨some "a", none⟩, 2⟩] (some "a") :=
  ⟨(quantities_invariant_amended [⟨⟨some "a", none⟩, 2⟩] ⟨some "p1", none⟩ 1
      (some "a") 5 [⟨⟨some "x", none⟩, 3⟩]).1 (by decide) (by decide),
   (quantities_invariant_amended [⟨⟨some "a", none⟩, 2⟩] ⟨some "p1", none⟩ 1
      (some "a") 5 [⟨⟨some "x", none⟩, 3⟩]).2.1 (by decide),
   (quantities_invariant_amended [⟨⟨some "a", none⟩, 2⟩] ⟨some "p1", none⟩ 1
      (some "a") 5 [⟨⟨some "x", none⟩, 3⟩]).2.2.1 (by decide),
   (quantities_invariant_amended [⟨⟨some "a", none⟩, 2⟩] ⟨some "p1", none⟩ 1
      (some "a") 5 [⟨⟨some "x", none⟩, 3⟩]).2.2.2.1,
   (quantities_invariant_amended [⟨⟨some "a", none⟩, 2⟩] ⟨some "p1", none⟩ 1
      (some "a") 5 [⟨⟨some "x", none⟩, 3⟩]).2.2.2.2.1 (by decide),
   (quantities_invariant_amended [⟨⟨some "a", none⟩, 2⟩] ⟨some "p1", none⟩ 1
      (some "a") (-1) [⟨⟨some "x", none⟩, 3⟩]).2.2.2.2.2 (by decide)⟩

/-- C6 counterexample: starting from the empty cart (a reachable state), a
reconciliation whose successful payload contains two lines with the same
normalized identifier is installed verbatim — `setCartItems(response.data.items
|| [])` performs no merging — so the resulting CartSnapshot holds two
CartLines with the same normalized identifier. -/
theorem unique_keys_counterexample :
    (fetchCartEffect [] true (FetchOutcome.resolves true
        (some ⟨some [⟨⟨some "x", none⟩, 1⟩, ⟨⟨some "x", none⟩, 1⟩]⟩))).1
      = [⟨⟨some "x", none⟩, 1⟩, ⟨⟨some "x", none⟩, 1⟩] ∧
    ¬ (cartKeys (fetchCartEffect [] true (FetchOutcome.resolves true
        (some ⟨some [⟨⟨some "x", none⟩, 1⟩, ⟨⟨some "x", none⟩, 1⟩]⟩))).1).Nodup := by
  decide

/-- C6 amended: `addToCart`, `updateQuantity`, `removeFromCart` and
`clearCart` preserve the pairwise distinctness of normalized identifiers, and
the reconciliation replacement yields distinct identifiers exactly when the
server payload has them — the replacement itself performs no merging, so a
duplicated payload violates the invariant. -/
theorem unique_keys_amended (cart : List CartItem) (p : Product) (k : Int)
    (pid : Option String) (q : Int) (L : List CartItem) :
    ((cartKeys cart).Nodup → (cartKeys (addToCartItems cart p k)).Nodup) ∧
    ((cartKeys cart).Nodup → (cartKeys (updateQuantityItems cart pid q)).Nodup) ∧
    ((cartKeys cart).Nodup → (cartKeys (removeFromCartItems cart pid)).Nodup) ∧
    (cartKeys (clearCart cart).cartItems).Nodup ∧
    ((cartKeys L).Nodup → (cartKeys (fetchCartEffect cart true
        (FetchOutcome.resolves true (some ⟨some L⟩))).1).Nodup) := by
  have hrem : (cartKeys cart).Nodup →
      (cartKeys (removeFromCartItems cart pid)).Nodup := by
    intro h
    exact List.Nodup.sublist
      (List.Sublist.map _ (removeFromCartItems_sublist cart pid)) h
  refine ⟨?_, ?_, hrem, ?_, ?_⟩
  · intro h
    by_cases hex : ∃ item ∈ cart, productId item.product = productId p
    · rw [cartKeys_addToCartItems_of_mem cart p k hex]
      exact h
    · push_neg at hex
      rw [addToCartItems_of_not_mem cart p k hex, cartKeys_append]
      have hnot : productId p ∉ cartKeys cart := by
        intro hmem
        rcases List.mem_map.mp hmem with ⟨item, hm, heq⟩
        exact hex item hm heq
      have hd : List.Disjoint (cartKeys cart) (cartKeys [(⟨p, k⟩ : CartItem)]) := by
        intro x hx hmem
        rw [show cartKeys [(⟨p, k⟩ : CartItem)] = [productId p] from rfl,
          List.mem_singleton] at hmem
        rw [hmem] at hx
        exact hnot hx
      exact List.Nodup.append h (List.nodup_singleton _) hd
  · intro h
    unfold updateQuantityItems
    by_cases hq : q ≤ 0
    · rw [if_pos hq]
      exact hrem h
    · rw [if_neg hq, cartKeys_map_update]
      exact h
  · simp [clearCart, cartKeys]
  · intro hL
    simpa [fetchCartEffect] using hL

/-- Witness for C6 at concrete carts and payloads. -/
theorem unique_keys_amended_witness :
    (cartKeys (addToCartItems [⟨⟨some "a", none⟩, 2⟩] ⟨some "p1", none⟩ 1)).Nodup ∧
    (cartKeys (updateQuantityItems [⟨⟨some "a", none⟩, 2⟩] (some "a") 5)).Nodup ∧
    (cartKeys (removeFromCartItems [⟨⟨some "a", none⟩, 2⟩] (some "a"))).Nodup ∧
    (cartKeys (clearCart [⟨⟨some "a", none⟩, 2⟩]).cartItems).Nodup ∧
    (cartKeys (fetchCartEffect [⟨⟨some "a", none⟩, 2⟩] true
        (FetchOutcome.resolves true (some ⟨some [⟨⟨some "x", none⟩, 3⟩]⟩))).1).Nodup :=
  ⟨(unique_keys_amended [⟨⟨some "a", none⟩, 2⟩] ⟨some "p1", none⟩ 1 (some "a") 5
      [⟨⟨some "x", none⟩, 3⟩]).1 (by decide),
   (unique_keys_amended [⟨⟨some "a", none⟩, 2⟩] ⟨some "p1", none⟩ 1 (some "a") 5
      [⟨⟨some "x", none⟩, 3⟩]).2.1 (by decide),
   (unique_keys_amended [⟨⟨some "a", none⟩, 2⟩] ⟨some "p1", none⟩ 1 (some "a") 5
      [⟨⟨some "x", none⟩, 3⟩]).2.2.1 (by decide),
   (unique_keys_amended [⟨⟨some "a", none⟩, 2⟩] ⟨some "p1", none⟩ 1 (some "a") 5
      [⟨⟨some "x", none⟩, 3⟩]).2.2.2.1,
   (unique_keys_amended [⟨⟨some "a", none⟩, 2⟩] ⟨some "p1", none⟩ 1 (some "a") 5
      [⟨⟨some "x", none⟩, 3⟩]).2.2.2.2 (by decide)⟩
